import Mathlib

/-!
# Verification of the shared task-registry (`src/shared/state.py`)

Shallow embedding of the thread-safe task-graph tracker: a registry of
named nodes (status, dependencies, retries, output, priority, feedback)
plus aggregate counters (total tasks, completed tasks, progress), guarded
by one non-reentrant mutual-exclusion lock.

Two layers are modelled:

* the *functional* layer: each operation's body as a pure state
  transformer, the lock elided (it only serializes whole operations);
* the *lock-aware* layer (`ts_*` definitions): each `@thread_safe`
  operation first acquires the single non-reentrant lock; a nested call to
  another decorated operation while the lock is held blocks forever, which
  we model as `none`.

Python's true division `completed / total` produces an IEEE-754 binary64
value; `int(x)` truncates toward zero.  `roundRatB64` models
round-to-nearest-even binary64 rounding of a positive rational in the
normal range (ample for every magnitude the claims exercise), so
`pyProgress` computes exactly the value `int((completed / total) * 100)`
that the Python code stores.
-/

namespace NodeNetwork

/-- One node of the registry, as built by `register_node` /
the node-initialisation operation in `src/shared/state.py`.  The `output`
and `feedback` payloads are opaque caller data, modelled by a type
parameter `α`; a Python dict without the key is `none`. -/
structure Node (α : Type) where
  status : String
  dependencies : List String
  retries : Nat
  output : Option α
  priority : Int
  feedback : Option α
deriving DecidableEq

/-- The module-level `state` dict of `src/shared/state.py`: aggregate
counters plus the insertion-ordered mapping from node name to node
(modelled as an association list, keys unique by construction). -/
structure RegState (α : Type) where
  progress : Nat
  total_tasks : Int
  completed_tasks : Nat
  nodes : List (String × Node α)
deriving DecidableEq

/-- The initial `state` dict: progress 0, total_tasks 1, completed 0,
no nodes. -/
def initState (α : Type) : RegState α :=
  { progress := 0, total_tasks := 1, completed_tasks := 0, nodes := [] }

/-- Python dict lookup `nodes.get(name)` on the association list. -/
def lookupNode (name : String) : List (String × Node α) → Option (Node α)
  | [] => none
  | (k, v) :: rest => if k = name then some v else lookupNode name rest

/-- Python dict item update `nodes[name] = f(nodes[name])`: rewrites the
entry in place (keys are unique, so the first hit is the entry). -/
def setNode (name : String) (f : Node α → Node α) :
    List (String × Node α) → List (String × Node α)
  | [] => []
  | (k, v) :: rest =>
      if k = name then (k, f v) :: rest else (k, v) :: setNode name f rest

/-! ## Binary64 model for the progress computation -/

/-- Round `n / d` (with `d > 0`) to the nearest integer, ties to even —
the rounding IEEE-754 applies to the infinitely precise result. -/
def roundNearestEven (n d : Nat) : Nat :=
  let q := n / d
  let r := n % d
  if 2 * r < d then q
  else if d < 2 * r then q + 1
  else if q % 2 = 0 then q else q + 1

/-- Fuel-driven binary logarithm (structurally recursive so the kernel can
evaluate it): with fuel at least `n`, equals `⌊log₂ n⌋` for `n ≥ 1`. -/
def log2Fuel : Nat → Nat → Nat
  | 0, _ => 0
  | fuel + 1, n => if 2 ≤ n then log2Fuel fuel (n / 2) + 1 else 0

/-- Floor of the binary logarithm of `n`, `0` for `n ≤ 1`. -/
def natLog2 (n : Nat) : Nat :=
  log2Fuel n n

/-- The exponent `e` with `2 ^ e ≤ a / b < 2 ^ (e + 1)`, for `a, b ≥ 1`. -/
def floorLog2Pos (a b : Nat) : Int :=
  if b ≤ a then (natLog2 (a / b) : Int)
  else
    let k0 := natLog2 (b / a)
    if b ≤ a * 2 ^ k0 then -(k0 : Int) else -((k0 : Int) + 1)

/-- The IEEE-754 binary64 value nearest to `a / b` (`a, b ≥ 1`), as an
exact dyadic pair `(m, ex)` denoting `m * 2 ^ ex`: the 53-bit significand
obtained by round-to-nearest-even at scale `2 ^ (e - 52)`.  Valid on the
normal range, which covers every magnitude arising in the claims (CPython
raises `OverflowError` outside the double range rather than producing a
value). -/
def roundRatB64 (a b : Nat) : Nat × Int :=
  let e := floorLog2Pos a b
  let s := 52 - e
  let m := if 0 ≤ s
    then roundNearestEven (a * 2 ^ s.toNat) b
    else roundNearestEven a (b * 2 ^ (-s).toNat)
  (m, e - 52)

/-- The exact value `m * 2 ^ ex` as a numerator/denominator pair. -/
def dyadicToFrac (m : Nat) (ex : Int) : Nat × Nat :=
  if 0 ≤ ex then (m * 2 ^ ex.toNat, 1) else (m, 2 ^ (-ex).toNat)

/-- Truncation toward zero of the nonnegative value `m * 2 ^ ex` —
Python's `int()` on a nonnegative float. -/
def truncDyadic (m : Nat) (ex : Int) : Nat :=
  if 0 ≤ ex then m * 2 ^ ex.toNat else m / 2 ^ (-ex).toNat

/-- Python `int((completed / total) * 100)` exactly as CPython evaluates
it for `total ≥ 1`: correctly-rounded binary64 division, correctly-rounded
binary64 multiplication by the exactly representable 100, then truncation
toward zero. -/
def pyProgress (completed total : Nat) : Nat :=
  if completed = 0 then 0
  else
    let d1 := roundRatB64 completed total
    let fr := dyadicToFrac (d1.1 * 100) d1.2
    let d2 := roundRatB64 fr.1 fr.2
    truncDyadic d2.1 d2.2

/-! ## The registry operations (functional layer)

Each definition is the body of the correspondingly named function of
`src/shared/state.py`, the lock elided. -/

/-- Python `register_node(node_name, dependencies=None, priority=0)`: insert a
fresh node if the name is absent, else do nothing.  (`dependencies or []`
turns `None` into `[]`; the parameter here is the resulting list.) -/
def register_node (node_name : String) (dependencies : List String)
    (priority : Int) (s : RegState α) : RegState α :=
  if (lookupNode node_name s.nodes).isNone then
    { s with nodes := s.nodes ++
        [(node_name,
          { status := "Not Started", dependencies := dependencies,
            retries := 0, output := none, priority := priority,
            feedback := none })] }
  else s

/-- Python `get_priority(node_name)`: the node's priority, or `None` if absent. -/
def get_priority (node_name : String) (s : RegState α) : Option Int :=
  (lookupNode node_name s.nodes).map (·.priority)

/-- Models `initialize_node(node_name)` of `src/shared/state.py`: insert a
fresh default node and bump `total_tasks` if the name is absent, else do
nothing. -/
def init_node (node_name : String) (s : RegState α) : RegState α :=
  if (lookupNode node_name s.nodes).isNone then
    { s with
      nodes := s.nodes ++
        [(node_name,
          { status := "Not Started", dependencies := [], retries := 0,
            output := none, priority := 0, feedback := none })],
      total_tasks := s.total_tasks + 1 }
  else s

/-- Python `add_dependency(node_name, dependency)`: create the node first when
absent (via the node-initialisation operation), then append `dependency`
to its dependency list. -/
def add_dependency (node_name dependency : String) (s : RegState α) :
    RegState α :=
  let s1 := if (lookupNode node_name s.nodes).isNone then init_node node_name s else s
  let upd := fun nd : Node α => { nd with dependencies := nd.dependencies ++ [dependency] }
  { s1 with nodes := setNode node_name upd s1.nodes }

/-- Python `get_dependencies(node_name)`: the node's dependency list, `[]` if the
node is absent. -/
def get_dependencies (node_name : String) (s : RegState α) : List String :=
  match lookupNode node_name s.nodes with
  | some nd => nd.dependencies
  | none => []

/-- Python `are_dependencies_completed(node_name)`: every dependency's status
lookup (`None` when the dependency node is absent) must equal
`"Completed"`. -/
def are_dependencies_completed (node_name : String) (s : RegState α) : Bool :=
  (get_dependencies node_name s).all fun dependency =>
    match lookupNode dependency s.nodes with
    | some nd => nd.status = "Completed"
    | none => false

/-- Python `increment_retry_count(node_name)`: bump `retries` if present. -/
def increment_retry_count (node_name : String) (s : RegState α) : RegState α :=
  if (lookupNode node_name s.nodes).isNone then s
  else
    let upd := fun nd : Node α => { nd with retries := nd.retries + 1 }
    { s with nodes := setNode node_name upd s.nodes }

/-- Python `get_retry_count(node_name)`: the node's retry count, 0 if absent. -/
def get_retry_count (node_name : String) (s : RegState α) : Nat :=
  match lookupNode node_name s.nodes with
  | some nd => nd.retries
  | none => 0

/-- Python `add_feedback(node_name, feedback)`: store feedback if present. -/
def add_feedback (node_name : String) (feedback : α) (s : RegState α) :
    RegState α :=
  if (lookupNode node_name s.nodes).isNone then s
  else
    let upd := fun nd : Node α => { nd with feedback := some feedback }
    { s with nodes := setNode node_name upd s.nodes }

/-- Python `get_feedback(node_name)`: the stored feedback, `None` if the node is
absent or feedback was never added. -/
def get_feedback (node_name : String) (s : RegState α) : Option α :=
  match lookupNode node_name s.nodes with
  | some nd => nd.feedback
  | none => none

/-- Python `update_progress()`: recompute `progress` from the counters, only when
`total_tasks > 0`. -/
def update_progress (s : RegState α) : RegState α :=
  if 0 < s.total_tasks then
    { s with progress := pyProgress s.completed_tasks s.total_tasks.toNat }
  else s

/-- Python `increment_completed_tasks()`: bump the counter, then recompute
progress. -/
def increment_completed_tasks (s : RegState α) : RegState α :=
  update_progress { s with completed_tasks := s.completed_tasks + 1 }

/-- Python `update_node_output(node_name, output)`: store the output, force
status `"Completed"`, and run the completed-task increment — all only when
the node is present. -/
def update_node_output (node_name : String) (output : α) (s : RegState α) :
    RegState α :=
  if (lookupNode node_name s.nodes).isNone then s
  else
    let upd := fun nd : Node α => { nd with output := some output, status := "Completed" }
    increment_completed_tasks { s with nodes := setNode node_name upd s.nodes }

/-- Python `set_total_tasks(total)`: overwrite `total_tasks` unconditionally. -/
def set_total_tasks (total : Int) (s : RegState α) : RegState α :=
  { s with total_tasks := total }

/-- Python `update_node_status(node_name, status)`: overwrite the node's status
if present. -/
def update_node_status (node_name status : String) (s : RegState α) :
    RegState α :=
  if (lookupNode node_name s.nodes).isNone then s
  else
    let upd := fun nd : Node α => { nd with status := status }
    { s with nodes := setNode node_name upd s.nodes }

/-- Python `get_node_status(node_name)`: the node's status, `"Not Started"` if
absent. -/
def get_node_status (node_name : String) (s : RegState α) : String :=
  match lookupNode node_name s.nodes with
  | some nd => nd.status
  | none => "Not Started"

/-- Python `get_progress()`. -/
def get_progress (s : RegState α) : Nat :=
  s.progress

/-! ## Lock-aware layer

The `@thread_safe` decorator wraps every operation in
`with state_lock: ...`, where `state_lock` is a plain non-reentrant
`threading.Lock`.  The `locked` flag says whether the calling thread
already holds the lock when the wrapper tries to acquire it; acquiring a
non-reentrant lock the thread already holds blocks forever, modelled as
`none`.  Calls made from inside a decorated body go to the *decorated*
module-level name, hence run with `locked := true`. -/

/-- Decorated `get_dependencies`. -/
def ts_get_dependencies (node_name : String) (locked : Bool)
    (s : RegState α) : Option (List String) :=
  if locked then none else some (get_dependencies node_name s)

/-- Decorated `are_dependencies_completed`: its body calls the decorated
`get_dependencies` while already holding the lock. -/
def ts_are_dependencies_completed (node_name : String) (locked : Bool)
    (s : RegState α) : Option Bool :=
  if locked then none
  else
    match ts_get_dependencies node_name true s with
    | none => none
    | some dependencies =>
        some (dependencies.all fun dependency =>
          match lookupNode dependency s.nodes with
          | some nd => nd.status = "Completed"
          | none => false)

/-- Decorated node-initialisation operation (`initialize_node`). -/
def ts_init_node (node_name : String) (locked : Bool) (s : RegState α) :
    Option (RegState α) :=
  if locked then none else some (init_node node_name s)

/-- Decorated `add_dependency`: when the node is absent its body calls the
decorated node-initialisation operation while already holding the lock. -/
def ts_add_dependency (node_name dependency : String) (locked : Bool)
    (s : RegState α) : Option (RegState α) :=
  if locked then none
  else
    match (if (lookupNode node_name s.nodes).isNone
           then ts_init_node node_name true s else some s) with
    | none => none
    | some s1 =>
        let upd := fun nd : Node α =>
          { nd with dependencies := nd.dependencies ++ [dependency] }
        some { s1 with nodes := setNode node_name upd s1.nodes }

/-- Decorated `update_progress`. -/
def ts_update_progress (locked : Bool) (s : RegState α) :
    Option (RegState α) :=
  if locked then none else some (update_progress s)

/-- Decorated `increment_completed_tasks`: its body calls the decorated
`update_progress` while already holding the lock. -/
def ts_increment_completed_tasks (locked : Bool) (s : RegState α) :
    Option (RegState α) :=
  if locked then none
  else ts_update_progress true { s with completed_tasks := s.completed_tasks + 1 }

/-- Decorated `update_node_output`: when the node is present its body
calls the decorated `increment_completed_tasks` while already holding the
lock. -/
def ts_update_node_output (node_name : String) (output : α) (locked : Bool)
    (s : RegState α) : Option (RegState α) :=
  if locked then none
  else
    if (lookupNode node_name s.nodes).isNone then some s
    else
      let upd := fun nd : Node α =>
        { nd with output := some output, status := "Completed" }
      ts_increment_completed_tasks true { s with nodes := setNode node_name upd s.nodes }

/-! ## Call sequences of the two registration operations -/

/-- A call to `register_node` or to the node-initialisation operation. -/
inductive RegCall where
  | reg (node_name : String) (dependencies : List String) (priority : Int)
  | ini (node_name : String)
deriving DecidableEq

/-- The node name a registration call targets. -/
def RegCall.name : RegCall → String
  | .reg n _ _ => n
  | .ini n => n

/-- Run one registration call on the state. -/
def applyRegCall (s : RegState α) : RegCall → RegState α
  | .reg n d p => register_node n d p s
  | .ini n => init_node n s

/-- Run a sequence of registration calls left to right. -/
def runCalls (s : RegState α) (cs : List RegCall) : RegState α :=
  cs.foldl applyRegCall s

/-! ## Helper lemmas -/

lemma lookupNode_eq_none_iff (name : String) (l : List (String × Node α)) :
    lookupNode name l = none ↔ name ∉ l.map Prod.fst := by
  induction l with
  | nil => simp [lookupNode]
  | cons p rest ih =>
      obtain ⟨k, v⟩ := p
      by_cases h : k = name
      · subst h
        simp [lookupNode]
      · simp only [lookupNode, if_neg h, List.map_cons, List.mem_cons, not_or, ih]
        constructor
        · intro hn
          exact ⟨fun he => h he.symm, hn⟩
        · exact fun hn => hn.2

lemma lookupNode_setNode_self (name : String) (f : Node α → Node α)
    (l : List (String × Node α)) :
    lookupNode name (setNode name f l) = (lookupNode name l).map f := by
  induction l with
  | nil => simp [lookupNode, setNode]
  | cons p rest ih =>
      obtain ⟨k, v⟩ := p
      by_cases h : k = name
      · simp [setNode, lookupNode, h]
      · simp [setNode, lookupNode, h, ih]

lemma lookupNode_setNode_other (k name : String) (hk : k ≠ name)
    (f : Node α → Node α) (l : List (String × Node α)) :
    lookupNode k (setNode name f l) = lookupNode k l := by
  induction l with
  | nil => rfl
  | cons p rest ih =>
      obtain ⟨k1, v⟩ := p
      by_cases h1 : k1 = name
      · subst h1
        have hne : k1 ≠ k := fun he => hk he.symm
        simp [setNode, lookupNode, hne]
      · by_cases h2 : k1 = k
        · subst h2
          simp [setNode, lookupNode, h1]
        · simp [setNode, lookupNode, h1, h2, ih]

lemma lookupNode_append_self (name : String) (l : List (String × Node α))
    (nd : Node α) (h : lookupNode name l = none) :
    lookupNode name (l ++ [(name, nd)]) = some nd := by
  induction l with
  | nil => simp [lookupNode]
  | cons p rest ih =>
      obtain ⟨k, v⟩ := p
      by_cases hk : k = name
      · simp [lookupNode, hk] at h
      · simp only [lookupNode, if_neg hk] at h ⊢
        exact ih h

lemma keys_applyRegCall (s : RegState α) (c : RegCall) :
    (applyRegCall s c).nodes.map Prod.fst =
      (if (lookupNode (RegCall.name c) s.nodes).isNone
       then s.nodes.map Prod.fst ++ [RegCall.name c]
       else s.nodes.map Prod.fst) := by
  cases c with
  | reg n d p =>
      by_cases hc : (lookupNode n s.nodes).isNone <;>
        simp [applyRegCall, register_node, RegCall.name, hc]
  | ini n =>
      by_cases hc : (lookupNode n s.nodes).isNone <;>
        simp [applyRegCall, init_node, RegCall.name, hc]

lemma runCalls_keys (cs : List RegCall) :
    ∀ (s : RegState α), (s.nodes.map Prod.fst).Nodup →
      ((runCalls s cs).nodes.map Prod.fst).Nodup ∧
      ((runCalls s cs).nodes.map Prod.fst).toFinset =
        (s.nodes.map Prod.fst).toFinset ∪ (cs.map RegCall.name).toFinset := by
  induction cs with
  | nil =>
      intro s h
      exact ⟨h, by simp [runCalls]⟩
  | cons c rest ih =>
      intro s h
      have hrun : runCalls s (c :: rest) = runCalls (applyRegCall s c) rest := rfl
      have hstep := keys_applyRegCall s c
      by_cases hc : (lookupNode (RegCall.name c) s.nodes).isNone
      · rw [if_pos hc] at hstep
        have hmem : RegCall.name c ∉ s.nodes.map Prod.fst := by
          rw [← lookupNode_eq_none_iff]
          exact Option.isNone_iff_eq_none.mp hc
        have hnodup : ((applyRegCall s c).nodes.map Prod.fst).Nodup := by
          rw [hstep]
          simp [List.nodup_append, h, hmem]
        obtain ⟨h1, h2⟩ := ih (applyRegCall s c) hnodup
        refine ⟨by rwa [hrun], ?_⟩
        rw [hrun, h2, hstep]
        ext x
        simp only [List.toFinset_append, List.map_cons, List.toFinset_cons,
          Finset.mem_union, List.mem_toFinset, List.mem_singleton,
          Finset.mem_insert]
        tauto
      · rw [if_neg hc] at hstep
        have hmem : RegCall.name c ∈ s.nodes.map Prod.fst := by
          by_contra hno
          exact hc (Option.isNone_iff_eq_none.mpr
            ((lookupNode_eq_none_iff _ _).mpr hno))
        have hnodup : ((applyRegCall s c).nodes.map Prod.fst).Nodup := by
          rw [hstep]; exact h
        obtain ⟨h1, h2⟩ := ih (applyRegCall s c) hnodup
        refine ⟨by rwa [hrun], ?_⟩
        rw [hrun, h2, hstep]
        ext x
        simp only [List.map_cons, List.toFinset_cons, Finset.mem_union,
          List.mem_toFinset, Finset.mem_insert]
        constructor
        · tauto
        · rintro (hx | hx | hx)
          · exact Or.inl hx
          · exact Or.inl (by rw [hx]; exact hmem)
          · exact Or.inr hx

/-! ## Concrete states used by witnesses and counterexamples -/

/-- A fresh node as `register_node` builds it with no dependencies and
priority 0. -/
def exNode : Node Nat :=
  { status := "Not Started", dependencies := [], retries := 0,
    output := none, priority := 0, feedback := none }

/-- A registry with one node `"A"`, 28 of 100 tasks completed. -/
def exState100 : RegState Nat :=
  { progress := 0, total_tasks := 100, completed_tasks := 28,
    nodes := [("A", exNode)] }

/-- A registry with no nodes, 28 of 100 tasks completed. -/
def exCounters100 : RegState Nat :=
  { progress := 0, total_tasks := 100, completed_tasks := 28, nodes := [] }

/-! ## Claims -/

/-- C1: `are_dependencies_completed name` returns `true` iff every entry
in `name`'s dependency list names a registered node whose status is
exactly `"Completed"`; an absent node's dependency list reads as empty, so
it (and any node with an empty list) yields `true`. -/
theorem are_dependencies_completed_spec (s : RegState α) (name : String) :
    (are_dependencies_completed name s = true ↔
      ∀ d ∈ get_dependencies name s,
        ∃ nd, lookupNode d s.nodes = some nd ∧ nd.status = "Completed")
    ∧ (lookupNode name s.nodes = none → are_dependencies_completed name s = true)
    ∧ (get_dependencies name s = [] → are_dependencies_completed name s = true) := by
  refine ⟨?_, ?_, ?_⟩
  · unfold are_dependencies_completed
    rw [List.all_eq_true]
    constructor
    · intro h d hd
      have hh := h d hd
      cases hl : lookupNode d s.nodes with
      | none => rw [hl] at hh; simp at hh
      | some nd =>
          rw [hl] at hh
          simp only [decide_eq_true_eq] at hh
          exact ⟨nd, rfl, hh⟩
    · intro h d hd
      obtain ⟨nd, hnd, hst⟩ := h d hd
      rw [hnd]
      simp [hst]
  · intro h
    simp [are_dependencies_completed, get_dependencies, h]
  · intro h
    simp [are_dependencies_completed, h]

/-- Witness for C1: in the initial registry, the absent node `"B"` has
completed dependencies; a freshly registered `"C"` with empty dependency
list too. -/
theorem are_dependencies_completed_spec_witness :
    are_dependencies_completed "B" (initState Nat) = true ∧
    are_dependencies_completed "C" (register_node "C" [] 0 (initState Nat)) = true :=
  ⟨(are_dependencies_completed_spec (initState Nat) "B").2.1 rfl,
   (are_dependencies_completed_spec
      (register_node "C" [] 0 (initState Nat)) "C").2.2 (by decide)⟩

/-- C4: `update_node_status` changes at most the status field of the
named node and never touches `completed_tasks`, `total_tasks` or
`progress` — even when the new status is the literal `"Completed"` — and
is a no-op on an absent name. -/
theorem update_node_status_frame (s : RegState α) (name stat : String) :
    (update_node_status name stat s).completed_tasks = s.completed_tasks ∧
    (update_node_status name stat s).total_tasks = s.total_tasks ∧
    (update_node_status name stat s).progress = s.progress ∧
    (∀ k, k ≠ name →
      lookupNode k (update_node_status name stat s).nodes = lookupNode k s.nodes) ∧
    (∀ nd, lookupNode name s.nodes = some nd →
      lookupNode name (update_node_status name stat s).nodes =
        some { nd with status := stat }) ∧
    (lookupNode name s.nodes = none → update_node_status name stat s = s) := by
  cases hl : lookupNode name s.nodes with
  | none =>
      have hs : update_node_status name stat s = s := by
        simp [update_node_status, hl]
      refine ⟨by rw [hs], by rw [hs], by rw [hs], fun k _ => by rw [hs],
        fun nd hnd => ?_, fun _ => hs⟩
      simp at hnd
  | some nd0 =>
      have hs : update_node_status name stat s =
          { s with nodes :=
              setNode name (fun nd => { nd with status := stat }) s.nodes } := by
        simp [update_node_status, hl]
      refine ⟨by rw [hs], by rw [hs], by rw [hs], ?_, ?_, ?_⟩
      · intro k hk
        simp only [hs]
        exact lookupNode_setNode_other k name hk _ _
      · intro nd hnd
        injection hnd with hnd'
        subst hnd'
        simp only [hs]
        rw [lookupNode_setNode_self, hl]
        rfl
      · intro h
        simp at h

/-- Witness for C4: setting status `"Completed"` on node `"A"` of the
example registry leaves `completed_tasks` alone and only rewrites the
status field. -/
theorem update_node_status_frame_witness :
    (update_node_status "A" "Completed" exState100).completed_tasks =
      exState100.completed_tasks ∧
    lookupNode "A" (update_node_status "A" "Completed" exState100).nodes =
      some { exNode with status := "Completed" } :=
  ⟨(update_node_status_frame exState100 "A" "Completed").1,
   (update_node_status_frame exState100 "A" "Completed").2.2.2.2.1 exNode (by decide)⟩

/-- C8: on an absent node name every lookup degrades to a safe default
(empty list, `true`, `"Not Started"`, `0`, `none`) and every mutator is a
no-op, instead of signaling failure. -/
theorem absent_node_defaults (s : RegState α) (name stat : String)
    (v fb : α) (h : lookupNode name s.nodes = none) :
    get_dependencies name s = [] ∧
    are_dependencies_completed name s = true ∧
    get_node_status name s = "Not Started" ∧
    get_retry_count name s = 0 ∧
    get_feedback name s = none ∧
    get_priority name s = none ∧
    increment_retry_count name s = s ∧
    add_feedback name fb s = s ∧
    update_node_status name stat s = s ∧
    update_node_output name v s = s := by
  refine ⟨?_, ?_, ?_, ?_, ?_, ?_, ?_, ?_, ?_, ?_⟩ <;>
    simp [get_dependencies, are_dependencies_completed, get_node_status,
      get_retry_count, get_feedback, get_priority, increment_retry_count,
      add_feedback, update_node_status, update_node_output, h]

/-- Witness for C8: the name `"ghost"` is absent from the initial
registry; lookups return the defaults and `update_node_output` changes
nothing. -/
theorem absent_node_defaults_witness :
    get_node_status "ghost" (initState Nat) = "Not Started" ∧
    are_dependencies_completed "ghost" (initState Nat) = true ∧
    update_node_output "ghost" (3 : Nat) (initState Nat) = initState Nat :=
  have h := absent_node_defaults (initState Nat) "ghost" "X" (3 : Nat) (3 : Nat) rfl
  ⟨h.2.2.1, h.2.1, h.2.2.2.2.2.2.2.2.2⟩

/-- C10: `set_total_tasks n` overwrites `total_tasks` with `n`
unconditionally and changes nothing else — nodes, `completed_tasks` and
`progress` stay as they were, with no progress recomputation. -/
theorem set_total_tasks_frame (s : RegState α) (n : Int) :
    (set_total_tasks n s).total_tasks = n ∧
    (set_total_tasks n s).nodes = s.nodes ∧
    (set_total_tasks n s).completed_tasks = s.completed_tasks ∧
    (set_total_tasks n s).progress = s.progress :=
  ⟨rfl, rfl, rfl, rfl⟩

/-- C3: the decorated `increment_completed_tasks` never returns: its body
calls the decorated `update_progress`, which tries to re-acquire the
non-reentrant lock the wrapper already holds, so even a single thread's
single call blocks forever and `completed_tasks` can never reach `N * M`. -/
theorem increment_completed_tasks_deadlocks (s : RegState α) :
    ts_increment_completed_tasks false s = none := rfl

/-- C9: the three operations whose bodies invoke other decorated registry
operations — the dependency check (always), `add_dependency` on an absent
name, and `update_node_output` on a present name — block forever on the
nested acquire of the non-reentrant lock instead of running to
completion. -/
theorem nested_locked_calls_block (s : RegState α) (name dep : String)
    (v : α) :
    ts_are_dependencies_completed name false s = none ∧
    (lookupNode name s.nodes = none → ts_add_dependency name dep false s = none) ∧
    (lookupNode name s.nodes ≠ none →
      ts_update_node_output name v false s = none) := by
  refine ⟨rfl, ?_, ?_⟩
  · intro h
    simp [ts_add_dependency, ts_init_node, h]
  · intro h
    have hno : (lookupNode name s.nodes).isNone = false := by
      cases hl : lookupNode name s.nodes
      · exact absurd hl h
      · simp
    simp [ts_update_node_output, ts_increment_completed_tasks,
      ts_update_progress, hno]

/-- Witness for C9: concrete deadlocking calls — the dependency check on
the initial registry, `add_dependency` for the absent `"B"`, and
`update_node_output` for a registered `"A"`. -/
theorem nested_locked_calls_block_witness :
    ts_are_dependencies_completed "B" false (initState Nat) = none ∧
    ts_add_dependency "B" "A" false (initState Nat) = none ∧
    ts_update_node_output "A" (7 : Nat) false
      (register_node "A" [] 0 (initState Nat)) = none :=
  ⟨(nested_locked_calls_block (initState Nat) "B" "A" (7 : Nat)).1,
   (nested_locked_calls_block (initState Nat) "B" "A" (7 : Nat)).2.1 rfl,
   (nested_locked_calls_block (register_node "A" [] 0 (initState Nat))
      "A" "A" (7 : Nat)).2.2 (by decide)⟩

/-- C2 counterexample: with 100 total tasks and the 29th completion,
`update_node_output` stores progress 28, not
`⌊100 * completedTasks / totalTasks⌋ = 29` — the code computes
`int((29/100) * 100)` in binary64, where `29/100` rounds below `0.29`. -/
theorem update_node_output_floor_counterexample :
    (update_node_output "A" (5 : Nat) exState100).completed_tasks = 29 ∧
    (update_node_output "A" (5 : Nat) exState100).progress = 28 ∧
    100 * (update_node_output "A" (5 : Nat) exState100).completed_tasks /
      (update_node_output "A" (5 : Nat) exState100).total_tasks.toNat = 29 := by
  refine ⟨by decide, by decide, by decide⟩

/-- C2 (amended): on a present node, `update_node_output` stores the
output, forces status `"Completed"`, increments `completed_tasks` by
exactly 1, and recomputes progress as the binary64 evaluation of
`int(100 * (completedTasks / totalTasks))` when `total_tasks > 0`
(leaving it unchanged otherwise); on an absent node the state is
unchanged. -/
theorem update_node_output_spec (s : RegState α) (name : String) (v : α) :
    (∀ nd, lookupNode name s.nodes = some nd →
      lookupNode name (update_node_output name v s).nodes =
        some { nd with output := some v, status := "Completed" } ∧
      (update_node_output name v s).completed_tasks = s.completed_tasks + 1 ∧
      (update_node_output name v s).total_tasks = s.total_tasks ∧
      (update_node_output name v s).progress =
        (if 0 < s.total_tasks
         then pyProgress (s.completed_tasks + 1) s.total_tasks.toNat
         else s.progress))
    ∧ (lookupNode name s.nodes = none → update_node_output name v s = s) := by
  constructor
  · intro nd hnd
    have hs : update_node_output name v s =
        update_progress
          { s with
            nodes := setNode name
              (fun nd => { nd with output := some v, status := "Completed" })
              s.nodes,
            completed_tasks := s.completed_tasks + 1 } := by
      simp [update_node_output, increment_completed_tasks, hnd]
    by_cases ht : 0 < s.total_tasks
    · have hp : update_node_output name v s =
          { s with
            nodes := setNode name
              (fun nd => { nd with output := some v, status := "Completed" })
              s.nodes,
            completed_tasks := s.completed_tasks + 1,
            progress := pyProgress (s.completed_tasks + 1) s.total_tasks.toNat } := by
        rw [hs]
        simp [update_progress, ht]
      refine ⟨?_, by rw [hp], by rw [hp], by rw [hp]; simp [ht]⟩
      simp only [hp]
      rw [lookupNode_setNode_self, hnd]
      rfl
    · have hp : update_node_output name v s =
          { s with
            nodes := setNode name
              (fun nd => { nd with output := some v, status := "Completed" })
              s.nodes,
            completed_tasks := s.completed_tasks + 1 } := by
        rw [hs]
        simp [update_progress, ht]
      refine ⟨?_, by rw [hp], by rw [hp], by rw [hp]; simp [ht]⟩
      simp only [hp]
      rw [lookupNode_setNode_self, hnd]
      rfl
  · intro h
    simp [update_node_output, h]

/-- Witness for C2 (amended): completing node `"A"` of the example
registry stores the output, forces `"Completed"`, and bumps the counter
from 28 to 29. -/
theorem update_node_output_spec_witness :
    lookupNode "A" (update_node_output "A" (5 : Nat) exState100).nodes =
      some { exNode with output := some 5, status := "Completed" } ∧
    (update_node_output "A" (5 : Nat) exState100).completed_tasks =
      exState100.completed_tasks + 1 :=
  have h := (update_node_output_spec exState100 "A" (5 : Nat)).1 exNode (by decide)
  ⟨h.1, h.2.1⟩

/-- C7 counterexample: with 100 total tasks, the 29th increment stores
progress 28 even though `⌊100 * 29 / 100⌋ = 29`: the binary64 product
`(29/100) * 100` falls just below 29 and `int()` truncates it to 28. -/
theorem increment_completed_tasks_floor_counterexample :
    (increment_completed_tasks exCounters100).completed_tasks = 29 ∧
    0 < exCounters100.total_tasks ∧
    (increment_completed_tasks exCounters100).progress = 28 ∧
    100 * (increment_completed_tasks exCounters100).completed_tasks /
      exCounters100.total_tasks.toNat = 29 := by
  refine ⟨by decide, by decide, by decide, by decide⟩

/-- C7 (amended): `increment_completed_tasks` increases the counter by
exactly 1 and touches nothing else except progress, which — when
`total_tasks > 0` — it recomputes as the binary64 evaluation of
`int(100 * (completedTasks / totalTasks))`; when `total_tasks ≤ 0` the
division is skipped and progress is left unchanged, so the recomputation
never fails. -/
theorem increment_completed_tasks_spec (s : RegState α) :
    (increment_completed_tasks s).completed_tasks = s.completed_tasks + 1 ∧
    (increment_completed_tasks s).total_tasks = s.total_tasks ∧
    (increment_completed_tasks s).nodes = s.nodes ∧
    (0 < s.total_tasks →
      (increment_completed_tasks s).progress =
        pyProgress (s.completed_tasks + 1) s.total_tasks.toNat) ∧
    (s.total_tasks ≤ 0 → (increment_completed_tasks s).progress = s.progress) := by
  unfold increment_completed_tasks update_progress
  by_cases ht : 0 < s.total_tasks
  · refine ⟨by simp [ht], by simp [ht], by simp [ht], fun _ => by simp [ht], ?_⟩
    intro hle
    exact absurd ht (not_lt.mpr hle)
  · refine ⟨by simp [ht], by simp [ht], by simp [ht], fun hlt => absurd hlt ht,
      fun _ => by simp [ht]⟩

/-- Witness for C7 (amended): incrementing from the initial registry
(1 total task) yields 1 completed task and progress `pyProgress 1 1`,
which is 100. -/
theorem increment_completed_tasks_spec_witness :
    (increment_completed_tasks (initState Nat)).completed_tasks =
      (initState Nat).completed_tasks + 1 ∧
    (increment_completed_tasks (initState Nat)).progress =
      pyProgress ((initState Nat).completed_tasks + 1)
        (initState Nat).total_tasks.toNat ∧
    pyProgress 1 1 = 100 :=
  ⟨(increment_completed_tasks_spec (initState Nat)).1,
   (increment_completed_tasks_spec (initState Nat)).2.2.2.1 (by decide),
   by decide⟩

/-- C5: any sequence of `register_node` / node-initialisation calls,
starting from the empty registry, leaves `nodes` with exactly the
distinct names used, each exactly once; a call naming an already-present
node leaves the whole registry unchanged (first registration wins, no
repeated `total_tasks` increment). -/
theorem registration_idempotent (α : Type) (cs : List RegCall) :
    ((runCalls (initState α) cs).nodes.map Prod.fst).Nodup ∧
    ((runCalls (initState α) cs).nodes.map Prod.fst).toFinset =
      (cs.map RegCall.name).toFinset ∧
    ∀ (s : RegState α) (c : RegCall),
      lookupNode (RegCall.name c) s.nodes ≠ none → applyRegCall s c = s := by
  obtain ⟨h1, h2⟩ := runCalls_keys cs (initState α) (by simp [initState])
  refine ⟨h1, ?_, ?_⟩
  · rw [h2]
    simp [initState]
  · intro s c hc
    have hno : (lookupNode (RegCall.name c) s.nodes).isNone = false := by
      cases hl : lookupNode (RegCall.name c) s.nodes
      · exact absurd hl hc
      · simp
    cases c with
    | reg n d p =>
        simp only [RegCall.name] at hno
        simp [applyRegCall, register_node, hno]
    | ini n =>
        simp only [RegCall.name] at hno
        simp [applyRegCall, init_node, hno]

/-- A sequence of registration calls that repeats the name `"A"`. -/
def exCalls : List RegCall :=
  [RegCall.reg "A" [] 0, RegCall.ini "B", RegCall.reg "A" ["X"] 5,
   RegCall.ini "A"]

/-- Witness for C5: running the example call sequence from the empty
registry leaves unique keys, and the repeated registration of `"A"` is a
no-op on the intermediate state. -/
theorem registration_idempotent_witness :
    ((runCalls (initState Nat) exCalls).nodes.map Prod.fst).Nodup ∧
    applyRegCall (register_node "A" [] 0 (initState Nat))
      (RegCall.reg "A" ["X"] 5) = register_node "A" [] 0 (initState Nat) :=
  ⟨(registration_idempotent Nat exCalls).1,
   (registration_idempotent Nat exCalls).2.2
     (register_node "A" [] 0 (initState Nat)) (RegCall.reg "A" ["X"] 5)
     (by decide)⟩

/-- C6: `add_dependency` on an absent node first creates it (status
`"Not Started"`, retries 0, priority 0) while incrementing `total_tasks`
by exactly 1, then appends the dependency, ending with dependency list
`[dep]`; counters other than `total_tasks` are untouched. -/
theorem add_dependency_creates (s : RegState α) (name dep : String)
    (h : lookupNode name s.nodes = none) :
    (add_dependency name dep s).total_tasks = s.total_tasks + 1 ∧
    lookupNode name (add_dependency name dep s).nodes =
      some { status := "Not Started", dependencies := [dep], retries := 0,
             output := none, priority := 0, feedback := none } ∧
    (add_dependency name dep s).completed_tasks = s.completed_tasks ∧
    (add_dependency name dep s).progress = s.progress := by
  have hs : add_dependency name dep s =
      { s with
        nodes := setNode name
          (fun nd => { nd with dependencies := nd.dependencies ++ [dep] })
          (s.nodes ++
            [(name, { status := "Not Started", dependencies := [], retries := 0,
                      output := none, priority := 0, feedback := none })]),
        total_tasks := s.total_tasks + 1 } := by
    simp [add_dependency, init_node, h]
  refine ⟨by rw [hs], ?_, by rw [hs], by rw [hs]⟩
  simp only [hs]
  rw [lookupNode_setNode_self, lookupNode_append_self name s.nodes _ h]
  rfl

/-- Witness for C6: `add_dependency "B" "A"` from the initial registry
(neither node exists) raises `total_tasks` from 1 to 2, gives `"B"` the
dependency list `["A"]`, and leaves its readiness false since `"A"` is
not completed. -/
theorem add_dependency_creates_witness :
    (add_dependency "B" "A" (initState Nat)).total_tasks = 2 ∧
    get_dependencies "B" (add_dependency "B" "A" (initState Nat)) = ["A"] ∧
    are_dependencies_completed "B" (add_dependency "B" "A" (initState Nat)) =
      false :=
  have h := add_dependency_creates (initState Nat) "B" "A" rfl
  ⟨h.1.trans (by decide), by decide, by decide⟩

end NodeNetwork
